import Mathlib

/-!
Verification development for the PUFlib core library.

The development shallowly embeds `src/puflib/puflib.c` (registry, NV store
manager, callback bus, status/report formatting) and the reference module
`src/modules/puflibtest/puflibtest.c` (the resumable provisioning state
machine).  Filesystem helpers (`misc.c`: path derivation, access probe,
directory-tree creation/removal, exclusive create-and-open) and the C
library's stream functions are not part of the given sources; they are
modelled from the spec's stated contracts, on a flat map from derived store
paths to nodes, with explicit OS-failure injection so that error branches of
the embedded code stay reachable.
-/

namespace PUFlib

/-- The six storage kinds: {temp, final, disabled} x {file, dir}
(`enum puflib_storage_type`). -/
inductive StorageType
  | STORAGE_TEMP_FILE
  | STORAGE_TEMP_DIR
  | STORAGE_FINAL_FILE
  | STORAGE_FINAL_DIR
  | STORAGE_DISABLED_FILE
  | STORAGE_DISABLED_DIR
deriving DecidableEq, Repr

open StorageType

/-- `storage_type_is_dir` from puflib.c. -/
def storage_type_is_dir : StorageType → Bool
  | STORAGE_TEMP_DIR => true
  | STORAGE_FINAL_DIR => true
  | STORAGE_DISABLED_DIR => true
  | _ => false

/-- OS error codes that the embedded code distinguishes. `EOK` stands for
errno value 0. -/
inductive Errno
  | EOK
  | EEXIST
  | EACCES
  | ENOENT
  | EPERM
deriving DecidableEq, Repr

/-- Modelled from libc: `strerror` description strings for the modelled
error codes. -/
def strerror : Errno → String
  | .EOK => "Success"
  | .EEXIST => "File exists"
  | .EACCES => "Permission denied"
  | .ENOENT => "No such file or directory"
  | .EPERM => "Operation not permitted"

/-- Modelled from the spec: an NV store path is a pure function of
(storage root, module name, storage kind), distinct modules and kinds never
colliding.  Since the string-building helper (`puflib_get_nv_store_path` in
misc.c) is not among the given sources, paths are modelled as the structured
record of their determining inputs, which realises exactly the determinism
and uniqueness the spec states. -/
structure NvPath where
  root : String
  name : String
  stype : StorageType
deriving DecidableEq, Repr

/-- A filesystem node at a derived store path: a regular file with content,
or a directory (content of directory stores is not further modelled). -/
inductive FsNode
  | fileNode (content : String)
  | dirNode
deriving DecidableEq, Repr

/-- The filesystem state visible through derived store paths, plus
OS-failure injection: `failCreate` lists paths where creation fails with
`EPERM` (permission / I/O failure), `failRemove` lists paths whose removal
fails together with the errno the OS reports, `failWrite` lists paths where
writing to an open stream fails. -/
structure FS where
  nodes : List (NvPath × FsNode)
  failCreate : List NvPath
  failRemove : List (NvPath × Errno)
  failWrite : List NvPath
deriving DecidableEq, Repr

/-- Lookup of a node in the flat path map. -/
def findNode : List (NvPath × FsNode) → NvPath → Option FsNode
  | [], _ => none
  | (q, n) :: rest, p => if p = q then some n else findNode rest p

/-- The node currently at path `p`, if any. -/
def FS.node (fs : FS) (p : NvPath) : Option FsNode :=
  findNode fs.nodes p

/-- Lookup of an injected removal failure. -/
def findRemoveFail : List (NvPath × Errno) → NvPath → Option Errno
  | [], _ => none
  | (q, e) :: rest, p => if p = q then some e else findRemoveFail rest p

/-- Remove every entry for path `p` from the flat path map. -/
def removeKey : List (NvPath × FsNode) → NvPath → List (NvPath × FsNode)
  | [], _ => []
  | (q, n) :: rest, p => if q = p then removeKey rest p else (q, n) :: removeKey rest p

/-- Replace (or create) the node at path `p`. -/
def FS.setNode (fs : FS) (p : NvPath) (n : FsNode) : FS :=
  { fs with nodes := (p, n) :: removeKey fs.nodes p }

/-- Delete the node at path `p`. -/
def FS.delNode (fs : FS) (p : NvPath) : FS :=
  { fs with nodes := removeKey fs.nodes p }

/-- Modelled from the spec: `puflib_get_nv_store_path` (misc.c, not among
the given sources) derives a deterministic path from (module name, storage
kind) and fails only if the storage root cannot be resolved; `root = none`
models an unresolvable storage root. -/
def puflib_get_nv_store_path (root : Option String) (name : String)
    (t : StorageType) : Option NvPath :=
  match root with
  | none => none
  | some r => some ⟨r, name, t⟩

/-- Modelled from the spec: `puflib_check_access` (misc.c, not among the
given sources) is an existence-plus-accessibility probe with a
file-vs-directory shape check and no content validation.  C convention:
`false` (0) means the probe succeeded, `true` (nonzero) means failure. -/
def puflib_check_access (fs : FS) (p : NvPath) (as_dir : Bool) : Bool :=
  match fs.node p with
  | some (.fileNode _) => as_dir
  | some .dirNode => !as_dir
  | none => true

/-- Modelled from the spec: `puflib_create_directory_tree` (misc.c, not
among the given sources) creates missing ancestor directories and, unless
`skipLast` is set, the final path component as a directory (failing with
`EEXIST` when something already sits there, as `mkdir` does).  In the flat
path map only the final component is material; injected `failCreate`
failures surface as `EPERM`.  Returns `(some errno, fs)` on failure. -/
def puflib_create_directory_tree (fs : FS) (p : NvPath) (skipLast : Bool) :
    Option Errno × FS :=
  if p ∈ fs.failCreate then (some .EPERM, fs)
  else if skipLast then (none, fs)
  else match fs.node p with
    | some _ => (some .EEXIST, fs)
    | none => (none, fs.setNode p .dirNode)

/-- Modelled from the spec: `puflib_create_and_open` (misc.c, not among the
given sources) creates the file exclusively — the provisioning protocol
relies on creation failing with `EEXIST` when the store already exists —
and opens it; the model records the resulting empty file. -/
def puflib_create_and_open (fs : FS) (p : NvPath) : Option Errno × FS :=
  if p ∈ fs.failCreate then (some .EPERM, fs)
  else match fs.node p with
    | some _ => (some .EEXIST, fs)
    | none => (none, fs.setNode p (.fileNode ""))

/-- Modelled from libc `remove`: deletes the entry at `p`; an injected
failure leaves the entry in place and reports the injected errno. -/
def fsRemove (fs : FS) (p : NvPath) : Option Errno × FS :=
  match findRemoveFail fs.failRemove p with
  | some e => (some e, fs)
  | none =>
    match fs.node p with
    | none => (some .ENOENT, fs)
    | some _ => (none, fs.delNode p)

/-- Modelled from the spec: `puflib_delete_tree` (misc.c, not among the
given sources) recursively removes a directory tree; in the flat path map
this removes the node at `p`.  A failed removal (injected) leaves the node
and reports the underlying errno; the spec allows partial deletion on
failure, which the flat model realises as the node remaining present. -/
def puflib_delete_tree (fs : FS) (p : NvPath) : Option Errno × FS :=
  fsRemove fs p

/-- Process state threaded through the embedded calls: the filesystem and
the C `errno` variable. -/
structure Sys where
  fs : FS
  errno : Errno
deriving DecidableEq, Repr

/-- `puflib_create_nv_store` from puflib.c: derive the path; for directory
kinds fail with `EEXIST` if the target is already an accessible directory;
create the directory tree (ancestors only, for file kinds); for file kinds
exclusively create-and-open the file.  On success returns the path. -/
def puflib_create_nv_store (root : Option String) (s : Sys) (name : String)
    (t : StorageType) : Option NvPath × Sys :=
  match puflib_get_nv_store_path root name t with
  | none => (none, s)
  | some path =>
    if storage_type_is_dir t = true ∧ puflib_check_access s.fs path true = false then
      (none, { s with errno := .EEXIST })
    else
      match puflib_create_directory_tree s.fs path (!storage_type_is_dir t) with
      | (some e, fs1) => (none, { fs := fs1, errno := e })
      | (none, fs1) =>
        if storage_type_is_dir t then
          (some path, { s with fs := fs1 })
        else
          match puflib_create_and_open fs1 path with
          | (some e, fs2) => (none, { fs := fs2, errno := e })
          | (none, fs2) => (some path, { s with fs := fs2 })

/-- `puflib_get_nv_store` from puflib.c: resolve the path only if it already
exists with the expected shape; otherwise fail with `EACCES`. -/
def puflib_get_nv_store (root : Option String) (s : Sys) (name : String)
    (t : StorageType) : Option NvPath × Sys :=
  match puflib_get_nv_store_path root name t with
  | none => (none, s)
  | some path =>
    if puflib_check_access s.fs path (storage_type_is_dir t) then
      (none, { s with errno := .EACCES })
    else
      (some path, s)

/-- `puflib_delete_nv_store` from puflib.c: directory kinds delete the whole
tree, file kinds remove the single entry; failure reports `true` with the
underlying errno preserved. -/
def puflib_delete_nv_store (root : Option String) (s : Sys) (name : String)
    (t : StorageType) : Bool × Sys :=
  match puflib_get_nv_store_path root name t with
  | none => (true, s)
  | some path =>
    match (if storage_type_is_dir t then puflib_delete_tree s.fs path
           else fsRemove s.fs path) with
    | (some e, fs1) => (true, { fs := fs1, errno := e })
    | (none, fs1) => (false, { s with fs := fs1 })

/-- Module status result: the `MODULE_PROVISIONED` / `MODULE_DISABLED` flag
set, or the distinguished `MODULE_STATUS_ERROR` value. -/
inductive ModuleStatus
  | flags (provisioned : Bool) (disabled : Bool)
  | statusErr
deriving DecidableEq, Repr

/-- `puflib_module_status` from puflib.c: derive the four final/disabled
paths (any derivation failure yields the distinguished error status), probe
each for existence/accessibility, and OR-combine: a disabled store of either
shape contributes PROVISIONED and DISABLED, a final store of either shape
contributes PROVISIONED. -/
def puflib_module_status (root : Option String) (fs : FS) (name : String) :
    ModuleStatus :=
  match puflib_get_nv_store_path root name STORAGE_FINAL_FILE,
        puflib_get_nv_store_path root name STORAGE_FINAL_DIR,
        puflib_get_nv_store_path root name STORAGE_DISABLED_FILE,
        puflib_get_nv_store_path root name STORAGE_DISABLED_DIR with
  | some path_f, some path_d, some path_dis_f, some path_dis_d =>
    let access_f := puflib_check_access fs path_f false = false
    let access_d := puflib_check_access fs path_d true = false
    let access_dis_f := puflib_check_access fs path_dis_f false = false
    let access_dis_d := puflib_check_access fs path_dis_d true = false
    .flags ((access_dis_f || access_dis_d) || (access_f || access_d))
           (access_dis_f || access_dis_d)
  | _, _, _, _ => .statusErr

/-- `puflib_deprovision` from puflib.c: look up the final-file and final-dir
stores; remove the file store if present (on failure: return `true`, errno
preserved, the dir store untouched); then delete the dir store tree if
present (on failure: return `true`, errno preserved); return `false` when
every required removal succeeded. -/
def puflib_deprovision (root : Option String) (s : Sys) (name : String) :
    Bool × Sys :=
  let r1 := puflib_get_nv_store root s name STORAGE_FINAL_FILE
  let r2 := puflib_get_nv_store root r1.2 name STORAGE_FINAL_DIR
  let store_file_path := r1.1
  let store_dir_path := r2.1
  let s2 := r2.2
  match store_file_path with
  | some p =>
    match fsRemove s2.fs p with
    | (some e, fs1) => (true, { fs := fs1, errno := e })
    | (none, fs1) =>
      match store_dir_path with
      | some q =>
        match puflib_delete_tree fs1 q with
        | (some e, fs2) => (true, { fs := fs2, errno := e })
        | (none, fs2) => (false, { s2 with fs := fs2 })
      | none => (false, { s2 with fs := fs1 })
  | none =>
    match store_dir_path with
    | some q =>
      match puflib_delete_tree s2.fs q with
      | (some e, fs2) => (true, { fs := fs2, errno := e })
      | (none, fs2) => (false, { s2 with fs := fs2 })
    | none => (false, s2)

/-! ## Callback bus and report formatting (puflib.c) -/

/-- Status levels (`enum puflib_status_level`), embedded by their underlying
integer values so that unrecognized values are expressible, as in C. -/
def STATUS_INFO : Nat := 0

/-- `STATUS_WARN` level value. -/
def STATUS_WARN : Nat := 1

/-- `STATUS_ERROR` level value. -/
def STATUS_ERROR : Nat := 2

/-- The `switch (level)` of `puflib_report`: `STATUS_INFO` renders "info",
`STATUS_WARN` renders "warn", `STATUS_ERROR` and every other value fall to
the `default` label rendering "error". -/
def level_as_string (level : Nat) : String :=
  if level = STATUS_INFO then "info"
  else if level = STATUS_WARN then "warn"
  else "error"

/-- The fixed fallback string `puflib_report` hands to the status handler
when formatting itself fails. -/
def INTERNAL_ERROR_MSG : String := "error (puflib): internal error formatting message"

/-- Modelled from the spec: `puflib_asprintf` (misc.c, not among the given
sources) composes the report string "level (module): message" and can fail
on allocation failure; `allocOk` injects that failure. -/
def puflib_asprintf_report (allocOk : Bool) (lvl name msg : String) :
    Option String :=
  if allocOk then some (lvl ++ " (" ++ name ++ "): " ++ msg) else none

/-- `puflib_report` from puflib.c, as the string it passes to the status
handler: the formatted "level (module name): message" string, or the fixed
internal-error fallback when formatting fails.  The C function returns
`void` in every case; totality of this definition embeds that the call
always returns normally. -/
def puflib_report (allocOk : Bool) (name : String) (level : Nat)
    (message : String) : String :=
  match puflib_asprintf_report allocOk (level_as_string level) name message with
  | none => INTERNAL_ERROR_MSG
  | some formatted => formatted

/-- A query handler: given (key, prompt, buffer) it produces the new buffer
content and its success/failure signal (C convention: `true` = failure). -/
abbrev QueryHandler : Type := String → String → String → String × Bool

/-- `puflib_query` from puflib.c: with no handler installed, set
`errno = 0` and return `true` (the failure signal) without touching the
buffer; with a handler installed, delegate and return its result verbatim.
Result: ((buffer content after the call, returned bool), state). -/
def puflib_query (handler : Option QueryHandler) (s : Sys)
    (key prompt buffer : String) : (String × Bool) × Sys :=
  match handler with
  | some h => (h key prompt buffer, s)
  | none => ((buffer, true), { s with errno := .EOK })

/-! ## The puflibtest module (puflibtest.c) -/

/-- The registered name of the test module (`MODULE_INFO.name`). -/
def MODULE_INFO_name : String := "puflibtest"

/-- Modelled from libc: `fopen(path, "r+")` succeeds iff a regular file is
at the path, yielding its content with the stream position at 0. -/
def fopenRW (fs : FS) (p : NvPath) : Option String :=
  match fs.node p with
  | some (.fileNode c) => some c
  | _ => none

/-- Modelled from libc: writing `w` at stream position 0 of a file opened
"r+" overwrites the first `w.length` bytes and keeps any longer tail. -/
def writeAt0 (fs : FS) (p : NvPath) (w : String) : FS :=
  match fs.node p with
  | some (.fileNode c) =>
    fs.setNode p (.fileNode (w ++ (String.mk (c.data.drop w.length))))
  | _ => fs

/-- Leading decimal value of a digit run (helper for the `fscanf` model). -/
def digitsVal : List Char → Option Nat → Option Nat
  | c :: rest, acc =>
    if c.isDigit then
      digitsVal rest (some ((acc.getD 0) * 10 + (c.toNat - '0'.toNat)))
    else acc
  | [], acc => acc

/-- Modelled from libc: `fscanf(f, "%d", &step)` — skip leading whitespace,
an optional sign, then a nonempty digit run; on matching failure the
target variable is not assigned (`none`). -/
def fscanf_d (s : String) : Option Int :=
  match s.data.dropWhile Char.isWhitespace with
  | '-' :: rest => (digitsVal rest none).map (fun n => -(n : Int))
  | '+' :: rest => (digitsVal rest none).map (fun n => (n : Int))
  | cs => (digitsVal cs none).map (fun n => (n : Int))

/-- The step value `provision_continue` observes: `int step = 0;` then
`fscanf(f, "%d", &step)` leaves 0 on matching failure. -/
def persistedStep (content : String) : Int :=
  (fscanf_d content).getD 0

/-- A report event: the (level, message) pair a `puflib_report` call in the
module hands to the bus, in call order. -/
abbrev ReportTrace : Type := List (Nat × String)

/-- Provisioning outcomes (`enum provisioning_status`). -/
inductive ProvisioningStatus
  | PROVISION_COMPLETE
  | PROVISION_INCOMPLETE
  | PROVISION_ERROR
deriving DecidableEq, Repr

open ProvisioningStatus

/-- `provision_start` from puflibtest.c: report, write "1\n" to the fresh
temp store, report, run the query into a 500-byte stack buffer (its
pre-call content, uninitialized in C, is the parameter `qbuf0`), report the
query input, return INCOMPLETE. -/
def provision_start (qh : Option QueryHandler) (qbuf0 : String) (s : Sys)
    (p : NvPath) : ProvisioningStatus × Sys × ReportTrace :=
  let s1 : Sys := { s with fs := writeAt0 s.fs p "1\n" }
  let q := puflib_query qh s1 "testquery" "Enter any data: " qbuf0
  (PROVISION_INCOMPLETE, q.2,
    [(STATUS_INFO, "writing to NV store"),
     (STATUS_INFO, "provisioning will continue after the next invocation"),
     (STATUS_INFO, "query input was: " ++ q.1.1)])

/-- Modelled from libc: `fputs(text, f)` on a file opened "w" (truncated at
open): the content becomes `text`, or the write fails (injected via
`failWrite`, the `fputs == EOF` branch). -/
def fputsTrunc (fs : FS) (p : NvPath) (text : String) : Option Errno × FS :=
  if p ∈ fs.failWrite then (some .EPERM, fs)
  else match fs.node p with
    | some (.fileNode _) => (none, fs.setNode p (.fileNode text))
    | _ => (some .EPERM, fs)

/-- `provision_continue` from puflibtest.c: read the persisted step from the
open temp store (content `content`).
step 1: report twice, rewind and write "2\n", return INCOMPLETE.
step 2: report twice, delete the temp store (on failure report the errno
description at error level and return ERROR), create the final-file store
(on failure `puflib_perror` and return ERROR), open it "w" and write
"provisioned" (on failure `puflib_perror` and return ERROR), return
COMPLETE.
any other step: report "NV store corrupted" at warn level, return ERROR. -/
def provision_continue (root : Option String) (s : Sys) (p : NvPath)
    (content : String) : ProvisioningStatus × Sys × ReportTrace :=
  let step := persistedStep content
  if step = 1 then
    (PROVISION_INCOMPLETE, { s with fs := writeAt0 s.fs p "2\n" },
      [(STATUS_INFO, "reading from NV store"),
       (STATUS_INFO, "writing to NV store again"),
       (STATUS_INFO, "provisioning will continue after the next invocation")])
  else if step = 2 then
    let tr0 : ReportTrace :=
      [(STATUS_INFO, "reading from NV store"),
       (STATUS_INFO, "complete"),
       (STATUS_INFO, "deleting NV store")]
    let d := puflib_delete_nv_store root s MODULE_INFO_name STORAGE_TEMP_FILE
    if d.1 then
      (PROVISION_ERROR, d.2, tr0 ++ [(STATUS_ERROR, strerror d.2.errno)])
    else
      let c := puflib_create_nv_store root d.2 MODULE_INFO_name STORAGE_FINAL_FILE
      match c.1 with
      | none =>
        (PROVISION_ERROR, c.2, tr0 ++ [(STATUS_ERROR, strerror c.2.errno)])
      | some finalPath =>
        match fputsTrunc c.2.fs finalPath "provisioned" with
        | (some e, fs1) =>
          (PROVISION_ERROR, { fs := fs1, errno := e },
            tr0 ++ [(STATUS_ERROR, strerror e)])
        | (none, fs1) =>
          (PROVISION_COMPLETE, { c.2 with fs := fs1 }, tr0)
  else
    (PROVISION_ERROR, s,
      [(STATUS_INFO, "reading from NV store"),
       (STATUS_WARN, "NV store corrupted")])

/-- `provision` from puflibtest.c: attempt to create the temp-file store.
On success open it and run `provision_start` (fresh run).  On failure
report, re-attach via `puflib_get_nv_store` (on failure `puflib_perror` and
return ERROR), open the store and run `provision_continue` (resumption). -/
def provision (root : Option String) (qh : Option QueryHandler)
    (qbuf0 : String) (s : Sys) : ProvisioningStatus × Sys × ReportTrace :=
  let c := puflib_create_nv_store root s MODULE_INFO_name STORAGE_TEMP_FILE
  match c.1 with
  | some path =>
    match fopenRW c.2.fs path with
    | none =>
      (PROVISION_ERROR, c.2, [(STATUS_ERROR, strerror c.2.errno)])
    | some _ =>
      let r := provision_start qh qbuf0 c.2 path
      (r.1, r.2.1, (STATUS_INFO, "creating NV store") :: r.2.2)
  | none =>
    let tr0 : ReportTrace :=
      [(STATUS_INFO, "could not create or NV store exists, continuing provision")]
    let g := puflib_get_nv_store root c.2 MODULE_INFO_name STORAGE_TEMP_FILE
    match g.1 with
    | none =>
      (PROVISION_ERROR, g.2, tr0 ++ [(STATUS_ERROR, strerror g.2.errno)])
    | some path =>
      match fopenRW g.2.fs path with
      | none =>
        (PROVISION_ERROR, g.2, tr0 ++ [(STATUS_ERROR, strerror g.2.errno)])
      | some content =>
        let r := provision_continue root g.2 path content
        (r.1, r.2.1, tr0 ++ r.2.2)

/-! ## Scenario abbreviations -/

/-- The empty filesystem: no stores and no injected OS failures. -/
def emptyFS : FS := ⟨[], [], [], []⟩

/-- The temp-file store path of the test module under root `r`. -/
def tempPath (r : String) : NvPath := ⟨r, MODULE_INFO_name, STORAGE_TEMP_FILE⟩

/-- The final-file store path of the test module under root `r`. -/
def finalPath (r : String) : NvPath := ⟨r, MODULE_INFO_name, STORAGE_FINAL_FILE⟩

/-! ## Filesystem lemmas -/

theorem findNode_removeKey_same (q : NvPath) :
    ∀ l : List (NvPath × FsNode), findNode (removeKey l q) q = none := by
  intro l
  induction l with
  | nil => rfl
  | cons hd tl ih =>
    obtain ⟨a, b⟩ := hd
    by_cases hq : a = q
    · rw [removeKey, if_pos hq]; exact ih
    · rw [removeKey, if_neg hq, findNode, if_neg (fun hh : q = a => hq hh.symm)]
      exact ih

theorem findNode_removeKey_ne (p q : NvPath) (h : p ≠ q) :
    ∀ l : List (NvPath × FsNode), findNode (removeKey l q) p = findNode l p := by
  intro l
  induction l with
  | nil => rfl
  | cons hd tl ih =>
    obtain ⟨a, b⟩ := hd
    by_cases hq : a = q
    · rw [removeKey, if_pos hq, findNode,
        if_neg (fun hh : p = a => h (hq ▸ hh)), ih]
    · rw [removeKey, if_neg hq, findNode, findNode]
      by_cases hp : p = a
      · rw [if_pos hp, if_pos hp]
      · rw [if_neg hp, if_neg hp, ih]

theorem node_setNode_same (fs : FS) (q : NvPath) (n : FsNode) :
    (fs.setNode q n).node q = some n := by
  simp [FS.node, FS.setNode, findNode]

theorem node_setNode_ne (fs : FS) (p q : NvPath) (n : FsNode) (h : p ≠ q) :
    (fs.setNode q n).node p = fs.node p := by
  rw [FS.node, FS.setNode]
  show findNode ((q, n) :: removeKey fs.nodes q) p = _
  rw [findNode, if_neg h]
  exact findNode_removeKey_ne p q h fs.nodes

theorem node_delNode_same (fs : FS) (q : NvPath) :
    (fs.delNode q).node q = none :=
  findNode_removeKey_same q fs.nodes

theorem node_delNode_ne (fs : FS) (p q : NvPath) (h : p ≠ q) :
    (fs.delNode q).node p = fs.node p :=
  findNode_removeKey_ne p q h fs.nodes

theorem setNode_failCreate (fs : FS) (q : NvPath) (n : FsNode) :
    (fs.setNode q n).failCreate = fs.failCreate := rfl

theorem setNode_failRemove (fs : FS) (q : NvPath) (n : FsNode) :
    (fs.setNode q n).failRemove = fs.failRemove := rfl

theorem setNode_failWrite (fs : FS) (q : NvPath) (n : FsNode) :
    (fs.setNode q n).failWrite = fs.failWrite := rfl

theorem delNode_failCreate (fs : FS) (q : NvPath) :
    (fs.delNode q).failCreate = fs.failCreate := rfl

theorem delNode_failRemove (fs : FS) (q : NvPath) :
    (fs.delNode q).failRemove = fs.failRemove := rfl

theorem delNode_failWrite (fs : FS) (q : NvPath) :
    (fs.delNode q).failWrite = fs.failWrite := rfl

theorem get_nv_store_fs (root : Option String) (s : Sys) (name : String)
    (t : StorageType) : (puflib_get_nv_store root s name t).2.fs = s.fs := by
  rw [puflib_get_nv_store]
  cases root with
  | none => rfl
  | some r =>
    simp only [puflib_get_nv_store_path]
    split <;> rfl

theorem get_nv_store_file (r name : String) (s : Sys) (t : StorageType)
    (c : String) (ht : storage_type_is_dir t = false)
    (h : s.fs.node ⟨r, name, t⟩ = some (.fileNode c)) :
    puflib_get_nv_store (some r) s name t = (some ⟨r, name, t⟩, s) := by
  have hcond : puflib_check_access s.fs ⟨r, name, t⟩ (storage_type_is_dir t) = false := by
    rw [puflib_check_access, h]; exact ht
  simp [puflib_get_nv_store, puflib_get_nv_store_path, hcond]

theorem get_nv_store_dir (r name : String) (s : Sys) (t : StorageType)
    (ht : storage_type_is_dir t = true)
    (h : s.fs.node ⟨r, name, t⟩ = some .dirNode) :
    puflib_get_nv_store (some r) s name t = (some ⟨r, name, t⟩, s) := by
  have hcond : puflib_check_access s.fs ⟨r, name, t⟩ (storage_type_is_dir t) = false := by
    rw [puflib_check_access, h, ht]; rfl
  simp [puflib_get_nv_store, puflib_get_nv_store_path, hcond]

theorem get_nv_store_missing (r name : String) (s : Sys) (t : StorageType)
    (h : s.fs.node ⟨r, name, t⟩ = none) :
    puflib_get_nv_store (some r) s name t = (none, { s with errno := .EACCES }) := by
  have hcond : puflib_check_access s.fs ⟨r, name, t⟩ (storage_type_is_dir t) = true := by
    rw [puflib_check_access, h]
  simp [puflib_get_nv_store, puflib_get_nv_store_path, hcond]

/-! ## Claim theorems -/

/-- C5: for every module, key, prompt, buffer and capacity, `puflib_query`
with no handler installed fails immediately (returns `true`, the failure
signal, and sets `errno` to 0) without writing to the supplied buffer; with
a handler installed it returns exactly the handler's result and performs no
effect of its own on the process state. -/
theorem puflib_query_spec (s : Sys) (key prompt buffer : String) :
    ((puflib_query none s key prompt buffer).1 = (buffer, true) ∧
     (puflib_query none s key prompt buffer).2 = { s with errno := .EOK }) ∧
    ∀ h : QueryHandler,
      (puflib_query (some h) s key prompt buffer).1 = h key prompt buffer ∧
      (puflib_query (some h) s key prompt buffer).2 = s :=
  ⟨⟨rfl, rfl⟩, fun _ => ⟨rfl, rfl⟩⟩

/-- C6: `puflib_report` can never fail its caller: for every module, level
and message it passes to the status handler either the formatted message or
the fixed internal-error fallback, and in particular when formatting fails
(allocation failure) it degrades to the fallback rather than propagating
the failure; totality of the definition embeds that the call always returns
normally. -/
theorem puflib_report_never_fails (allocOk : Bool) (name : String)
    (level : Nat) (message : String) :
    (puflib_report allocOk name level message =
       level_as_string level ++ " (" ++ name ++ "): " ++ message ∨
     puflib_report allocOk name level message = INTERNAL_ERROR_MSG) ∧
    (allocOk = false →
     puflib_report allocOk name level message = INTERNAL_ERROR_MSG) := by
  cases allocOk
  · exact ⟨Or.inr rfl, fun _ => rfl⟩
  · exact ⟨Or.inl rfl, fun hh => by cases hh⟩

/-- Witness for C6: a concrete formatting failure degrades to the fixed
fallback string. -/
theorem puflib_report_never_fails_witness :
    puflib_report false "alpha" STATUS_INFO "msg" = INTERNAL_ERROR_MSG :=
  (puflib_report_never_fails false "alpha" STATUS_INFO "msg").2 rfl

/-- C7: `puflib_report` renders "<level> (<module name>): <message>" where
the level label is "info" for STATUS_INFO, "warn" for STATUS_WARN, and
"error" for STATUS_ERROR as well as for every unrecognized level value. -/
theorem puflib_report_rendering (name message : String) :
    (∀ level : Nat, puflib_report true name level message =
        level_as_string level ++ " (" ++ name ++ "): " ++ message) ∧
    level_as_string STATUS_INFO = "info" ∧
    level_as_string STATUS_WARN = "warn" ∧
    level_as_string STATUS_ERROR = "error" ∧
    (∀ level : Nat, level ≠ STATUS_INFO → level ≠ STATUS_WARN →
        level ≠ STATUS_ERROR → level_as_string level = "error") := by
  refine ⟨fun _ => rfl, rfl, rfl, rfl, fun level h0 h1 _ => ?_⟩
  rw [level_as_string, if_neg h0, if_neg h1]

/-- Witness for C7: a concrete unrecognized level value renders with the
"error" label. -/
theorem puflib_report_rendering_witness :
    puflib_report true "alpha" 7 "msg" = "error" ++ " (" ++ "alpha" ++ "): " ++ "msg" := by
  have h := puflib_report_rendering "alpha" "msg"
  rw [h.1 7, h.2.2.2.2 7 (by decide) (by decide) (by decide)]

/-- C3: for every module and directory storage kind, `puflib_create_nv_store`
on a target that already exists as a directory fails with the already-exists
signal — no path, `errno = EEXIST` — and leaves the filesystem (hence the
existing directory tree) completely untouched. -/
theorem puflib_create_nv_store_eexists (r name : String) (s : Sys)
    (t : StorageType) (hdir : storage_type_is_dir t = true)
    (hex : s.fs.node ⟨r, name, t⟩ = some .dirNode) :
    (puflib_create_nv_store (some r) s name t).1 = none ∧
    (puflib_create_nv_store (some r) s name t).2.errno = .EEXIST ∧
    (puflib_create_nv_store (some r) s name t).2.fs = s.fs := by
  have hacc : puflib_check_access s.fs ⟨r, name, t⟩ true = false := by
    rw [puflib_check_access, hex]; rfl
  rw [puflib_create_nv_store]
  simp only [puflib_get_nv_store_path]
  rw [if_pos ⟨hdir, hacc⟩]
  exact ⟨rfl, rfl, rfl⟩

/-- Witness for C3: creating the final-dir store when that directory
already exists fails with EEXIST and changes nothing. -/
theorem puflib_create_nv_store_eexists_witness :
    (puflib_create_nv_store (some "r")
      ⟨⟨[(⟨"r", "m", StorageType.STORAGE_FINAL_DIR⟩, .dirNode)], [], [], []⟩, .EOK⟩
      "m" .STORAGE_FINAL_DIR).1 = none ∧
    (puflib_create_nv_store (some "r")
      ⟨⟨[(⟨"r", "m", StorageType.STORAGE_FINAL_DIR⟩, .dirNode)], [], [], []⟩, .EOK⟩
      "m" .STORAGE_FINAL_DIR).2.errno = .EEXIST ∧
    (puflib_create_nv_store (some "r")
      ⟨⟨[(⟨"r", "m", StorageType.STORAGE_FINAL_DIR⟩, .dirNode)], [], [], []⟩, .EOK⟩
      "m" .STORAGE_FINAL_DIR).2.fs =
      ⟨[(⟨"r", "m", StorageType.STORAGE_FINAL_DIR⟩, .dirNode)], [], [], []⟩ :=
  puflib_create_nv_store_eexists "r" "m"
    ⟨⟨[(⟨"r", "m", StorageType.STORAGE_FINAL_DIR⟩, .dirNode)], [], [], []⟩, .EOK⟩
    .STORAGE_FINAL_DIR rfl (by decide)

/-- C8: `puflib_module_status` is derived purely from the four
final/disabled existence/accessibility probes: an unresolvable storage root
yields the distinguished error status; with no store present neither flag
is set; with only a disabled store present (either shape) PROVISIONED and
DISABLED are returned together. -/
theorem puflib_module_status_spec (r name : String) (fs : FS) :
    (puflib_module_status none fs name = .statusErr) ∧
    (puflib_check_access fs ⟨r, name, .STORAGE_FINAL_FILE⟩ false = true →
     puflib_check_access fs ⟨r, name, .STORAGE_FINAL_DIR⟩ true = true →
     puflib_check_access fs ⟨r, name, .STORAGE_DISABLED_FILE⟩ false = true →
     puflib_check_access fs ⟨r, name, .STORAGE_DISABLED_DIR⟩ true = true →
     puflib_module_status (some r) fs name = .flags false false) ∧
    (puflib_check_access fs ⟨r, name, .STORAGE_FINAL_FILE⟩ false = true →
     puflib_check_access fs ⟨r, name, .STORAGE_FINAL_DIR⟩ true = true →
     (puflib_check_access fs ⟨r, name, .STORAGE_DISABLED_FILE⟩ false = false ∨
      puflib_check_access fs ⟨r, name, .STORAGE_DISABLED_DIR⟩ true = false) →
     puflib_module_status (some r) fs name = .flags true true) := by
  refine ⟨rfl, ?_, ?_⟩
  · intro h1 h2 h3 h4
    rw [puflib_module_status]
    simp only [puflib_get_nv_store_path, h1, h2, h3, h4]
    rfl
  · intro h1 h2 h3
    rw [puflib_module_status]
    rcases h3 with h3 | h3 <;>
      simp [puflib_get_nv_store_path, h1, h2, h3]

/-- Witness for C8: with only a disabled-file store present the status is
PROVISIONED and DISABLED together; with no store present it is neither. -/
theorem puflib_module_status_spec_witness :
    puflib_module_status (some "r")
      ⟨[(⟨"r", "m", StorageType.STORAGE_DISABLED_FILE⟩, .fileNode "")], [], [], []⟩
      "m" = .flags true true ∧
    puflib_module_status (some "r") ⟨[], [], [], []⟩ "m" = .flags false false :=
  ⟨(puflib_module_status_spec "r" "m"
      ⟨[(⟨"r", "m", StorageType.STORAGE_DISABLED_FILE⟩, .fileNode "")], [], [], []⟩).2.2
      (by decide) (by decide) (Or.inl (by decide)),
   (puflib_module_status_spec "r" "m" ⟨[], [], [], []⟩).2.1
      (by decide) (by decide) (by decide) (by decide)⟩

/-- C9: for every module and storage kind, a successful
`puflib_create_nv_store` followed by `puflib_get_nv_store` on the same
(module, kind) succeeds, and both calls return the same (deterministically
derived) path. -/
theorem create_then_get_same_path (r name : String) (s : Sys)
    (t : StorageType) (p : NvPath)
    (h : (puflib_create_nv_store (some r) s name t).1 = some p) :
    (puflib_get_nv_store (some r) (puflib_create_nv_store (some r) s name t).2
      name t).1 = some p ∧
    p = ⟨r, name, t⟩ := by
  rcases hC : puflib_create_nv_store (some r) s name t with ⟨copt, s2⟩
  rw [hC] at h
  replace h : copt = some p := h
  subst h
  rw [puflib_create_nv_store] at hC
  simp only [puflib_get_nv_store_path] at hC
  split at hC
  case isTrue hg =>
    injection hC with hc1 hc2
    cases hc1
  case isFalse hg =>
    split at hC
    case h_1 e fs1 heq =>
      injection hC with hc1 hc2
      cases hc1
    case h_2 fs1 heq =>
      have hfs1 : fs1.node ⟨r, name, t⟩ =
          (if storage_type_is_dir t then some FsNode.dirNode else s.fs.node ⟨r, name, t⟩) := by
        rw [puflib_create_directory_tree] at heq
        split at heq
        · injection heq with he1 he2; cases he1
        · split at heq
          case isTrue hskip =>
            injection heq with he1 he2
            subst he2
            have : storage_type_is_dir t = false := by
              cases hb : storage_type_is_dir t
              · rfl
              · rw [hb] at hskip; cases hskip
            rw [this]; rfl
          case isFalse hskip =>
            have hd : storage_type_is_dir t = true := by
              cases hb : storage_type_is_dir t
              · rw [hb] at hskip; exact absurd rfl hskip
              · rfl
            split at heq
            · injection heq with he1 he2; cases he1
            · injection heq with he1 he2
              subst he2
              rw [hd, node_setNode_same]
              rfl
      split at hC
      case isTrue hd =>
        injection hC with hc1 hc2
        injection hc1 with hp
        subst hp
        subst hc2
        rw [hd, if_pos rfl] at hfs1
        have hacc : puflib_check_access fs1 ⟨r, name, t⟩ (storage_type_is_dir t) = false := by
          rw [puflib_check_access, hfs1, hd]
          rfl
        refine ⟨?_, rfl⟩
        simp [puflib_get_nv_store, puflib_get_nv_store_path, hacc]
      case isFalse hd =>
        have hdf : storage_type_is_dir t = false := by
          cases hb : storage_type_is_dir t
          · rfl
          · rw [hb] at hd; exact absurd rfl hd
        split at hC
        case h_1 e fs2 heq2 =>
          injection hC with hc1 hc2
          cases hc1
        case h_2 fs2 heq2 =>
          injection hC with hc1 hc2
          injection hc1 with hp
          subst hp
          subst hc2
          have hfs2 : fs2.node ⟨r, name, t⟩ = some (FsNode.fileNode "") := by
            rw [puflib_create_and_open] at heq2
            split at heq2
            · injection heq2 with he1 he2; cases he1
            · split at heq2
              · injection heq2 with he1 he2; cases he1
              · injection heq2 with he1 he2
                subst he2
                exact node_setNode_same _ _ _
          have hacc : puflib_check_access fs2 ⟨r, name, t⟩ (storage_type_is_dir t) = false := by
            rw [puflib_check_access, hfs2]
            exact hdf
          refine ⟨?_, rfl⟩
          simp [puflib_get_nv_store, puflib_get_nv_store_path, hacc]

/-- Witness for C9: creating the final-file store on an empty filesystem
succeeds, and re-attaching with `get` yields the same derived path. -/
theorem create_then_get_same_path_witness :
    (puflib_get_nv_store (some "r")
      (puflib_create_nv_store (some "r") ⟨⟨[], [], [], []⟩, .EOK⟩ "m"
        .STORAGE_FINAL_FILE).2 "m" .STORAGE_FINAL_FILE).1 =
      some ⟨"r", "m", .STORAGE_FINAL_FILE⟩ ∧
    (⟨"r", "m", .STORAGE_FINAL_FILE⟩ : NvPath) = ⟨"r", "m", .STORAGE_FINAL_FILE⟩ :=
  create_then_get_same_path "r" "m" ⟨⟨[], [], [], []⟩, .EOK⟩
    .STORAGE_FINAL_FILE ⟨"r", "m", .STORAGE_FINAL_FILE⟩ (by decide)

/-- C4: when the temp store does not exist and creating it fails for a
reason other than already-exists (injected permission/I-O failure),
`provision()` returns ERROR after reporting the OS error (the `EACCES`
raised when re-attachment to a nonexistent store fails), and the filesystem
is left unchanged — no resumption takes place. -/
theorem provision_create_failure (r q0 : String) (qh : Option QueryHandler)
    (s : Sys) (habs : s.fs.node (tempPath r) = none)
    (hfail : tempPath r ∈ s.fs.failCreate) :
    (provision (some r) qh q0 s).1 = PROVISION_ERROR ∧
    (provision (some r) qh q0 s).2.1.fs = s.fs ∧
    (provision (some r) qh q0 s).2.2 =
      [(STATUS_INFO, "could not create or NV store exists, continuing provision"),
       (STATUS_ERROR, strerror .EACCES)] := by
  rw [tempPath] at habs hfail
  simp [provision, puflib_create_nv_store, puflib_get_nv_store_path,
    storage_type_is_dir, puflib_create_directory_tree, puflib_get_nv_store,
    puflib_check_access, fopenRW, habs, hfail]

/-- Witness for C4: a concrete injected creation failure on an absent temp
store yields ERROR, an untouched filesystem, and the OS-error report. -/
theorem provision_create_failure_witness :
    (provision (some "r") none ""
      ⟨⟨[], [⟨"r", MODULE_INFO_name, .STORAGE_TEMP_FILE⟩], [], []⟩, .EOK⟩).1 =
      PROVISION_ERROR ∧
    (provision (some "r") none ""
      ⟨⟨[], [⟨"r", MODULE_INFO_name, .STORAGE_TEMP_FILE⟩], [], []⟩, .EOK⟩).2.1.fs =
      ⟨[], [⟨"r", MODULE_INFO_name, .STORAGE_TEMP_FILE⟩], [], []⟩ ∧
    (provision (some "r") none ""
      ⟨⟨[], [⟨"r", MODULE_INFO_name, .STORAGE_TEMP_FILE⟩], [], []⟩, .EOK⟩).2.2 =
      [(STATUS_INFO, "could not create or NV store exists, continuing provision"),
       (STATUS_ERROR, strerror .EACCES)] :=
  provision_create_failure "r" "" none
    ⟨⟨[], [⟨"r", MODULE_INFO_name, .STORAGE_TEMP_FILE⟩], [], []⟩, .EOK⟩
    (by decide) (by decide)

/-- C2: for every temp store whose persisted step value is neither 1 nor 2
(including unparseable content, which leaves the step variable at 0),
`provision()` reports "NV store corrupted" at WARN level, returns ERROR,
and leaves the filesystem — in particular the temp store's content —
completely unchanged. -/
theorem provision_corrupted_store (r c q0 : String) (qh : Option QueryHandler)
    (s : Sys) (hnode : s.fs.node (tempPath r) = some (.fileNode c))
    (h1 : persistedStep c ≠ 1) (h2 : persistedStep c ≠ 2) :
    (provision (some r) qh q0 s).1 = PROVISION_ERROR ∧
    (provision (some r) qh q0 s).2.1.fs = s.fs ∧
    (STATUS_WARN, "NV store corrupted") ∈ (provision (some r) qh q0 s).2.2 := by
  rw [tempPath] at hnode
  by_cases hfc : (⟨r, MODULE_INFO_name, .STORAGE_TEMP_FILE⟩ : NvPath) ∈ s.fs.failCreate
  · simp [provision, puflib_create_nv_store, puflib_get_nv_store_path,
      storage_type_is_dir, puflib_create_directory_tree, puflib_create_and_open,
      puflib_get_nv_store, puflib_check_access, fopenRW, provision_continue,
      hnode, hfc, h1, h2]
  · simp [provision, puflib_create_nv_store, puflib_get_nv_store_path,
      storage_type_is_dir, puflib_create_directory_tree, puflib_create_and_open,
      puflib_get_nv_store, puflib_check_access, fopenRW, provision_continue,
      hnode, hfc, h1, h2]

/-- Witness for C2: a temp store containing "99" yields ERROR, the WARN
corruption report, and unchanged content. -/
theorem provision_corrupted_store_witness :
    (provision (some "r") none ""
      ⟨⟨[(⟨"r", MODULE_INFO_name, .STORAGE_TEMP_FILE⟩, .fileNode "99\n")], [], [], []⟩, .EOK⟩).1 =
      PROVISION_ERROR ∧
    (provision (some "r") none ""
      ⟨⟨[(⟨"r", MODULE_INFO_name, .STORAGE_TEMP_FILE⟩, .fileNode "99\n")], [], [], []⟩, .EOK⟩).2.1.fs =
      ⟨[(⟨"r", MODULE_INFO_name, .STORAGE_TEMP_FILE⟩, .fileNode "99\n")], [], [], []⟩ ∧
    (STATUS_WARN, "NV store corrupted") ∈
      (provision (some "r") none ""
        ⟨⟨[(⟨"r", MODULE_INFO_name, .STORAGE_TEMP_FILE⟩, .fileNode "99\n")], [], [], []⟩, .EOK⟩).2.2 :=
  provision_corrupted_store "r" "99\n" "" none
    ⟨⟨[(⟨"r", MODULE_INFO_name, .STORAGE_TEMP_FILE⟩, .fileNode "99\n")], [], [], []⟩, .EOK⟩
    (by decide) (by decide) (by decide)

/-- C10: `puflib_deprovision` removes whichever of the final-file and
final-dir stores exist and returns `false` when every required removal
succeeds; if the file-store removal fails it returns `true` with the
underlying OS error code preserved in `errno` and the dir store untouched;
if the dir-store removal fails it returns `true` with that error code
preserved. -/
theorem puflib_deprovision_spec (r name : String) (s : Sys) :
    ((s.fs.node ⟨r, name, .STORAGE_FINAL_FILE⟩ = none ∨
      (∃ c, s.fs.node ⟨r, name, .STORAGE_FINAL_FILE⟩ = some (.fileNode c))) →
     (s.fs.node ⟨r, name, .STORAGE_FINAL_DIR⟩ = none ∨
      s.fs.node ⟨r, name, .STORAGE_FINAL_DIR⟩ = some .dirNode) →
     findRemoveFail s.fs.failRemove ⟨r, name, .STORAGE_FINAL_FILE⟩ = none →
     findRemoveFail s.fs.failRemove ⟨r, name, .STORAGE_FINAL_DIR⟩ = none →
     (puflib_deprovision (some r) s name).1 = false ∧
     (puflib_deprovision (some r) s name).2.fs.node ⟨r, name, .STORAGE_FINAL_FILE⟩ = none ∧
     (puflib_deprovision (some r) s name).2.fs.node ⟨r, name, .STORAGE_FINAL_DIR⟩ = none) ∧
    (∀ (c : String) (e : Errno),
     s.fs.node ⟨r, name, .STORAGE_FINAL_FILE⟩ = some (.fileNode c) →
     findRemoveFail s.fs.failRemove ⟨r, name, .STORAGE_FINAL_FILE⟩ = some e →
     (puflib_deprovision (some r) s name).1 = true ∧
     (puflib_deprovision (some r) s name).2.errno = e ∧
     (puflib_deprovision (some r) s name).2.fs.node ⟨r, name, .STORAGE_FINAL_DIR⟩ =
       s.fs.node ⟨r, name, .STORAGE_FINAL_DIR⟩) ∧
    (∀ e : Errno,
     s.fs.node ⟨r, name, .STORAGE_FINAL_FILE⟩ = none →
     s.fs.node ⟨r, name, .STORAGE_FINAL_DIR⟩ = some .dirNode →
     findRemoveFail s.fs.failRemove ⟨r, name, .STORAGE_FINAL_DIR⟩ = some e →
     (puflib_deprovision (some r) s name).1 = true ∧
     (puflib_deprovision (some r) s name).2.errno = e) := by
  have hne : (⟨r, name, .STORAGE_FINAL_FILE⟩ : NvPath) ≠ ⟨r, name, .STORAGE_FINAL_DIR⟩ :=
    fun h => nomatch congrArg NvPath.stype h
  refine ⟨?_, ?_, ?_⟩
  · rintro (hf | ⟨c, hf⟩) (hd | hd) hrf hrd
    · simp [puflib_deprovision,
        get_nv_store_missing r name s .STORAGE_FINAL_FILE hf,
        get_nv_store_missing r name ⟨s.fs, .EACCES⟩ .STORAGE_FINAL_DIR hd,
        hf, hd]
    · simp [puflib_deprovision,
        get_nv_store_missing r name s .STORAGE_FINAL_FILE hf,
        get_nv_store_dir r name ⟨s.fs, .EACCES⟩ .STORAGE_FINAL_DIR rfl hd,
        puflib_delete_tree, fsRemove, hrd, hd,
        node_delNode_same, node_delNode_ne _ _ _ hne, hf]
    · simp [puflib_deprovision,
        get_nv_store_file r name s .STORAGE_FINAL_FILE c rfl hf,
        get_nv_store_missing r name s .STORAGE_FINAL_DIR hd,
        fsRemove, hrf, hf, hd,
        node_delNode_same, node_delNode_ne _ _ _ hne.symm]
    · simp [puflib_deprovision,
        get_nv_store_file r name s .STORAGE_FINAL_FILE c rfl hf,
        get_nv_store_dir r name s .STORAGE_FINAL_DIR rfl hd,
        puflib_delete_tree, fsRemove, delNode_failRemove, hrf, hrd, hf, hd,
        node_delNode_same, node_delNode_ne _ _ _ hne,
        node_delNode_ne _ _ _ hne.symm]
  · intro c e hf hre
    simp [puflib_deprovision,
      get_nv_store_file r name s .STORAGE_FINAL_FILE c rfl hf,
      get_nv_store_fs, fsRemove, hre]
  · intro e hf hd hre
    simp [puflib_deprovision,
      get_nv_store_missing r name s .STORAGE_FINAL_FILE hf,
      get_nv_store_dir r name ⟨s.fs, .EACCES⟩ .STORAGE_FINAL_DIR rfl hd,
      puflib_delete_tree, fsRemove, hre]

/-- Witness for C10: with both final stores present and no failures,
deprovisioning removes both and returns `false`; with an injected removal
failure on the final file it returns `true` and preserves `EPERM`. -/
theorem puflib_deprovision_spec_witness :
    ((puflib_deprovision (some "r")
      ⟨⟨[(⟨"r", "m", .STORAGE_FINAL_FILE⟩, .fileNode "provisioned"),
         (⟨"r", "m", .STORAGE_FINAL_DIR⟩, .dirNode)], [], [], []⟩, .EOK⟩ "m").1 = false ∧
     (puflib_deprovision (some "r")
      ⟨⟨[(⟨"r", "m", .STORAGE_FINAL_FILE⟩, .fileNode "provisioned"),
         (⟨"r", "m", .STORAGE_FINAL_DIR⟩, .dirNode)], [], [], []⟩, .EOK⟩ "m").2.fs.node
        ⟨"r", "m", .STORAGE_FINAL_FILE⟩ = none ∧
     (puflib_deprovision (some "r")
      ⟨⟨[(⟨"r", "m", .STORAGE_FINAL_FILE⟩, .fileNode "provisioned"),
         (⟨"r", "m", .STORAGE_FINAL_DIR⟩, .dirNode)], [], [], []⟩, .EOK⟩ "m").2.fs.node
        ⟨"r", "m", .STORAGE_FINAL_DIR⟩ = none) ∧
    ((puflib_deprovision (some "r")
      ⟨⟨[(⟨"r", "m", .STORAGE_FINAL_FILE⟩, .fileNode "x")],
        [], [(⟨"r", "m", .STORAGE_FINAL_FILE⟩, .EPERM)], []⟩, .EOK⟩ "m").1 = true ∧
     (puflib_deprovision (some "r")
      ⟨⟨[(⟨"r", "m", .STORAGE_FINAL_FILE⟩, .fileNode "x")],
        [], [(⟨"r", "m", .STORAGE_FINAL_FILE⟩, .EPERM)], []⟩, .EOK⟩ "m").2.errno = .EPERM) :=
  ⟨(puflib_deprovision_spec "r" "m"
      ⟨⟨[(⟨"r", "m", .STORAGE_FINAL_FILE⟩, .fileNode "provisioned"),
         (⟨"r", "m", .STORAGE_FINAL_DIR⟩, .dirNode)], [], [], []⟩, .EOK⟩).1
      (Or.inr ⟨"provisioned", by decide⟩) (Or.inr (by decide)) (by decide) (by decide),
   ⟨((puflib_deprovision_spec "r" "m"
      ⟨⟨[(⟨"r", "m", .STORAGE_FINAL_FILE⟩, .fileNode "x")],
        [], [(⟨"r", "m", .STORAGE_FINAL_FILE⟩, .EPERM)], []⟩, .EOK⟩).2.1 "x" .EPERM
      (by decide) (by decide)).1,
    ((puflib_deprovision_spec "r" "m"
      ⟨⟨[(⟨"r", "m", .STORAGE_FINAL_FILE⟩, .fileNode "x")],
        [], [(⟨"r", "m", .STORAGE_FINAL_FILE⟩, .EPERM)], []⟩, .EOK⟩).2.1 "x" .EPERM
      (by decide) (by decide)).2.1⟩⟩

/-! ## Provisioning step lemmas -/

theorem provision_start_status (qh : Option QueryHandler) (q0 : String)
    (s : Sys) (p : NvPath) :
    (provision_start qh q0 s p).1 = ProvisioningStatus.PROVISION_INCOMPLETE := by
  cases qh <;> rfl

theorem provision_start_fs (qh : Option QueryHandler) (q0 : String)
    (s : Sys) (p : NvPath) :
    (provision_start qh q0 s p).2.1.fs = writeAt0 s.fs p "1\n" := by
  cases qh <;> rfl

theorem provision_fresh (r q0 : String) (qh : Option QueryHandler) (s : Sys)
    (habs : s.fs.node (tempPath r) = none)
    (hok : tempPath r ∉ s.fs.failCreate) :
    (provision (some r) qh q0 s).1 = PROVISION_INCOMPLETE ∧
    (provision (some r) qh q0 s).2.1.fs =
      (s.fs.setNode (tempPath r) (.fileNode "")).setNode (tempPath r)
        (.fileNode "1\n") := by
  rw [tempPath] at habs hok
  have hc : puflib_create_nv_store (some r) s MODULE_INFO_name .STORAGE_TEMP_FILE =
      (some ⟨r, MODULE_INFO_name, .STORAGE_TEMP_FILE⟩,
       { s with fs := s.fs.setNode ⟨r, MODULE_INFO_name, .STORAGE_TEMP_FILE⟩ (.fileNode "") }) := by
    simp [puflib_create_nv_store, puflib_get_nv_store_path, storage_type_is_dir,
      puflib_create_directory_tree, puflib_create_and_open, habs, hok]
  refine ⟨?_, ?_⟩
  · simp [provision, hc, fopenRW, node_setNode_same, provision_start_status]
  · simp [provision, hc, fopenRW, node_setNode_same, provision_start_fs,
      writeAt0, tempPath]

theorem create_nv_store_on_existing_temp (r c : String) (s : Sys)
    (hnode : s.fs.node ⟨r, MODULE_INFO_name, .STORAGE_TEMP_FILE⟩ = some (.fileNode c)) :
    (puflib_create_nv_store (some r) s MODULE_INFO_name .STORAGE_TEMP_FILE).1 = none ∧
    (puflib_create_nv_store (some r) s MODULE_INFO_name .STORAGE_TEMP_FILE).2.fs = s.fs := by
  by_cases hfc : (⟨r, MODULE_INFO_name, .STORAGE_TEMP_FILE⟩ : NvPath) ∈ s.fs.failCreate
  · simp [puflib_create_nv_store, puflib_get_nv_store_path, storage_type_is_dir,
      puflib_create_directory_tree, puflib_create_and_open, hnode, hfc]
  · simp [puflib_create_nv_store, puflib_get_nv_store_path, storage_type_is_dir,
      puflib_create_directory_tree, puflib_create_and_open, hnode, hfc]

theorem provision_step1 (r c q0 : String) (qh : Option QueryHandler) (s : Sys)
    (hnode : s.fs.node (tempPath r) = some (.fileNode c))
    (h1 : persistedStep c = 1) :
    (provision (some r) qh q0 s).1 = PROVISION_INCOMPLETE ∧
    (provision (some r) qh q0 s).2.1.fs =
      s.fs.setNode (tempPath r)
        (.fileNode ("2\n" ++ String.mk (c.data.drop ("2\n".length)))) := by
  rw [tempPath] at hnode ⊢
  rcases hC : puflib_create_nv_store (some r) s MODULE_INFO_name .STORAGE_TEMP_FILE
    with ⟨copt, s1⟩
  have hcc := create_nv_store_on_existing_temp r c s hnode
  rw [hC] at hcc
  obtain ⟨hc1, hc2⟩ := hcc
  simp only at hc1 hc2
  subst hc1
  have hnode1 : s1.fs.node ⟨r, MODULE_INFO_name, .STORAGE_TEMP_FILE⟩ = some (.fileNode c) := by
    rw [hc2]; exact hnode
  have hg := get_nv_store_file r MODULE_INFO_name s1 .STORAGE_TEMP_FILE c rfl hnode1
  refine ⟨?_, ?_⟩
  · simp [provision, hC, hg, fopenRW, hnode1, provision_continue, h1]
  · simp [provision, hC, hg, fopenRW, hnode, hnode1, provision_continue, h1,
      writeAt0, hc2]

theorem provision_step2 (r c q0 : String) (qh : Option QueryHandler) (s : Sys)
    (hnode : s.fs.node (tempPath r) = some (.fileNode c))
    (h2 : persistedStep c = 2)
    (hrem : findRemoveFail s.fs.failRemove (tempPath r) = none)
    (hfinal : s.fs.node (finalPath r) = none)
    (hfc : finalPath r ∉ s.fs.failCreate)
    (hfw : finalPath r ∉ s.fs.failWrite) :
    (provision (some r) qh q0 s).1 = PROVISION_COMPLETE ∧
    (provision (some r) qh q0 s).2.1.fs =
      ((s.fs.delNode (tempPath r)).setNode (finalPath r) (.fileNode "")).setNode
        (finalPath r) (.fileNode "provisioned") := by
  have hFT : (⟨r, MODULE_INFO_name, .STORAGE_FINAL_FILE⟩ : NvPath) ≠
      ⟨r, MODULE_INFO_name, .STORAGE_TEMP_FILE⟩ :=
    fun h => nomatch congrArg NvPath.stype h
  rw [tempPath] at hnode hrem
  rw [finalPath] at hfinal hfc hfw
  rcases hC : puflib_create_nv_store (some r) s MODULE_INFO_name .STORAGE_TEMP_FILE
    with ⟨copt, s1⟩
  have hcc := create_nv_store_on_existing_temp r c s hnode
  rw [hC] at hcc
  obtain ⟨hc1, hc2⟩ := hcc
  simp only at hc1 hc2
  subst hc1
  have hnode1 : s1.fs.node ⟨r, MODULE_INFO_name, .STORAGE_TEMP_FILE⟩ = some (.fileNode c) := by
    rw [hc2]; exact hnode
  have hg := get_nv_store_file r MODULE_INFO_name s1 .STORAGE_TEMP_FILE c rfl hnode1
  have h1ne : persistedStep c ≠ 1 := by rw [h2]; decide
  have hdel : puflib_delete_nv_store (some r) s1 MODULE_INFO_name .STORAGE_TEMP_FILE =
      (false, { fs := s.fs.delNode ⟨r, MODULE_INFO_name, .STORAGE_TEMP_FILE⟩,
                errno := s1.errno }) := by
    simp [puflib_delete_nv_store, puflib_get_nv_store_path, storage_type_is_dir,
      fsRemove, hrem, hnode, hc2]
  have hcrF : puflib_create_nv_store (some r)
      { fs := s.fs.delNode ⟨r, MODULE_INFO_name, .STORAGE_TEMP_FILE⟩, errno := s1.errno }
      MODULE_INFO_name .STORAGE_FINAL_FILE =
      (some ⟨r, MODULE_INFO_name, .STORAGE_FINAL_FILE⟩,
       { fs := ((s.fs.delNode ⟨r, MODULE_INFO_name, .STORAGE_TEMP_FILE⟩).setNode
           ⟨r, MODULE_INFO_name, .STORAGE_FINAL_FILE⟩ (.fileNode "")),
         errno := s1.errno }) := by
    have hfc1 : (⟨r, MODULE_INFO_name, .STORAGE_FINAL_FILE⟩ : NvPath) ∉
        (s.fs.delNode ⟨r, MODULE_INFO_name, .STORAGE_TEMP_FILE⟩).failCreate := by
      rw [delNode_failCreate]; exact hfc
    have hfin1 : (s.fs.delNode ⟨r, MODULE_INFO_name, .STORAGE_TEMP_FILE⟩).node
        ⟨r, MODULE_INFO_name, .STORAGE_FINAL_FILE⟩ = none := by
      rw [node_delNode_ne _ _ _ hFT]; exact hfinal
    simp [puflib_create_nv_store, puflib_get_nv_store_path, storage_type_is_dir,
      puflib_create_directory_tree, puflib_create_and_open, hfc1, hfin1]
  have hput : fputsTrunc ((s.fs.delNode ⟨r, MODULE_INFO_name, .STORAGE_TEMP_FILE⟩).setNode
        ⟨r, MODULE_INFO_name, .STORAGE_FINAL_FILE⟩ (.fileNode ""))
      ⟨r, MODULE_INFO_name, .STORAGE_FINAL_FILE⟩ "provisioned" =
      (none, ((s.fs.delNode ⟨r, MODULE_INFO_name, .STORAGE_TEMP_FILE⟩).setNode
        ⟨r, MODULE_INFO_name, .STORAGE_FINAL_FILE⟩ (.fileNode "")).setNode
        ⟨r, MODULE_INFO_name, .STORAGE_FINAL_FILE⟩ (.fileNode "provisioned")) := by
    have hfw1 : (⟨r, MODULE_INFO_name, .STORAGE_FINAL_FILE⟩ : NvPath) ∉
        ((s.fs.delNode ⟨r, MODULE_INFO_name, .STORAGE_TEMP_FILE⟩).setNode
          ⟨r, MODULE_INFO_name, .STORAGE_FINAL_FILE⟩ (.fileNode "")).failWrite := by
      rw [setNode_failWrite, delNode_failWrite]; exact hfw
    simp [fputsTrunc, hfw1, node_setNode_same]
  refine ⟨?_, ?_⟩
  · simp [provision, hC, hg, fopenRW, hnode, hnode1, provision_continue, h1ne, h2,
      hdel, hcrF, hput, hc2]
  · simp [provision, hC, hg, fopenRW, hnode, hnode1, provision_continue, h1ne, h2,
      hdel, hcrF, hput, tempPath, finalPath, hc2]

/-- C1: starting from empty storage for the test module, three successive
`provision()` calls (each simulating a fresh process invocation, with
arbitrary query handlers and buffer contents) behave as: call 1 returns
INCOMPLETE leaving the temp-file store containing "1\n"; call 2 returns
INCOMPLETE leaving it containing "2\n"; call 3 returns COMPLETE, removes
the temp store and creates the final-file store containing "provisioned",
after which `puflib_module_status` reports PROVISIONED (and not
DISABLED). -/
theorem provision_resumption_round_trip (r q01 q02 q03 : String)
    (qh1 qh2 qh3 : Option QueryHandler) :
    let call1 := provision (some r) qh1 q01 ⟨emptyFS, .EOK⟩
    let call2 := provision (some r) qh2 q02 call1.2.1
    let call3 := provision (some r) qh3 q03 call2.2.1
    call1.1 = PROVISION_INCOMPLETE ∧
    call1.2.1.fs.node (tempPath r) = some (.fileNode "1\n") ∧
    call2.1 = PROVISION_INCOMPLETE ∧
    call2.2.1.fs.node (tempPath r) = some (.fileNode "2\n") ∧
    call3.1 = PROVISION_COMPLETE ∧
    call3.2.1.fs.node (tempPath r) = none ∧
    call3.2.1.fs.node (finalPath r) = some (.fileNode "provisioned") ∧
    puflib_module_status (some r) call3.2.1.fs MODULE_INFO_name =
      .flags true false := by
  have hFT : finalPath r ≠ tempPath r := fun h => nomatch congrArg NvPath.stype h
  have hTF : tempPath r ≠ finalPath r := fun h => nomatch congrArg NvPath.stype h
  obtain ⟨hs1, hfs1⟩ :=
    provision_fresh r q01 qh1 ⟨emptyFS, .EOK⟩ rfl (List.not_mem_nil _)
  have hnode1 : (provision (some r) qh1 q01 ⟨emptyFS, .EOK⟩).2.1.fs.node (tempPath r) =
      some (.fileNode "1\n") := by
    rw [hfs1, node_setNode_same]
  obtain ⟨hs2, hfs2⟩ :=
    provision_step1 r "1\n" q02 qh2 (provision (some r) qh1 q01 ⟨emptyFS, .EOK⟩).2.1
      hnode1 (by decide)
  have hnode2 : (provision (some r) qh2 q02
      (provision (some r) qh1 q01 ⟨emptyFS, .EOK⟩).2.1).2.1.fs.node (tempPath r) =
      some (.fileNode "2\n") := by
    rw [hfs2, node_setNode_same]
    decide
  have hrem3 : findRemoveFail (provision (some r) qh2 q02
      (provision (some r) qh1 q01 ⟨emptyFS, .EOK⟩).2.1).2.1.fs.failRemove
      (tempPath r) = none := by
    rw [hfs2, setNode_failRemove, hfs1, setNode_failRemove, setNode_failRemove]
    rfl
  have hfinal3 : (provision (some r) qh2 q02
      (provision (some r) qh1 q01 ⟨emptyFS, .EOK⟩).2.1).2.1.fs.node (finalPath r) =
      none := by
    rw [hfs2, node_setNode_ne _ _ _ _ hFT, hfs1, node_setNode_ne _ _ _ _ hFT,
      node_setNode_ne _ _ _ _ hFT]
    rfl
  have hfc3 : finalPath r ∉ (provision (some r) qh2 q02
      (provision (some r) qh1 q01 ⟨emptyFS, .EOK⟩).2.1).2.1.fs.failCreate := by
    rw [hfs2, setNode_failCreate, hfs1, setNode_failCreate, setNode_failCreate]
    exact List.not_mem_nil _
  have hfw3 : finalPath r ∉ (provision (some r) qh2 q02
      (provision (some r) qh1 q01 ⟨emptyFS, .EOK⟩).2.1).2.1.fs.failWrite := by
    rw [hfs2, setNode_failWrite, hfs1, setNode_failWrite, setNode_failWrite]
    exact List.not_mem_nil _
  obtain ⟨hs3, hfs3⟩ :=
    provision_step2 r "2\n" q03 qh3 (provision (some r) qh2 q02
      (provision (some r) qh1 q01 ⟨emptyFS, .EOK⟩).2.1).2.1
      hnode2 (by decide) hrem3 hfinal3 hfc3 hfw3
  have hnodeT : (provision (some r) qh3 q03 (provision (some r) qh2 q02
      (provision (some r) qh1 q01 ⟨emptyFS, .EOK⟩).2.1).2.1).2.1.fs.node (tempPath r) =
      none := by
    rw [hfs3, node_setNode_ne _ _ _ _ hTF, node_setNode_ne _ _ _ _ hTF,
      node_delNode_same]
  have hnodeF : (provision (some r) qh3 q03 (provision (some r) qh2 q02
      (provision (some r) qh1 q01 ⟨emptyFS, .EOK⟩).2.1).2.1).2.1.fs.node (finalPath r) =
      some (.fileNode "provisioned") := by
    rw [hfs3, node_setNode_same]
  have hnodeOther : ∀ t : StorageType, t ≠ .STORAGE_TEMP_FILE → t ≠ .STORAGE_FINAL_FILE →
      (provision (some r) qh3 q03 (provision (some r) qh2 q02
        (provision (some r) qh1 q01 ⟨emptyFS, .EOK⟩).2.1).2.1).2.1.fs.node
        ⟨r, MODULE_INFO_name, t⟩ = none := by
    intro t ht hf
    have hne1 : (⟨r, MODULE_INFO_name, t⟩ : NvPath) ≠ finalPath r := by
      rw [finalPath]; intro h; exact hf (congrArg NvPath.stype h)
    have hne2 : (⟨r, MODULE_INFO_name, t⟩ : NvPath) ≠ tempPath r := by
      rw [tempPath]; intro h; exact ht (congrArg NvPath.stype h)
    rw [hfs3, node_setNode_ne _ _ _ _ hne1, node_setNode_ne _ _ _ _ hne1,
      node_delNode_ne _ _ _ hne2, hfs2, node_setNode_ne _ _ _ _ hne2, hfs1,
      node_setNode_ne _ _ _ _ hne2, node_setNode_ne _ _ _ _ hne2]
    rfl
  have hstatus : puflib_module_status (some r) (provision (some r) qh3 q03
      (provision (some r) qh2 q02
        (provision (some r) qh1 q01 ⟨emptyFS, .EOK⟩).2.1).2.1).2.1.fs
      MODULE_INFO_name = .flags true false := by
    have hF := hnodeF
    rw [finalPath] at hF
    have hD := hnodeOther .STORAGE_FINAL_DIR (by decide) (by decide)
    have hDF := hnodeOther .STORAGE_DISABLED_FILE (by decide) (by decide)
    have hDD := hnodeOther .STORAGE_DISABLED_DIR (by decide) (by decide)
    simp [puflib_module_status, puflib_get_nv_store_path, puflib_check_access,
      hF, hD, hDF, hDD]
  exact ⟨hs1, hnode1, hs2, hnode2, hs3, hnodeT, hnodeF, hstatus⟩

end PUFlib
